import Mathlib

/-!
Shallow embedding of the playback/playlist controller of `src/script.js`
(class `MediaPlayer`).  The DOM is external: purely visual writes
(progress-fill width, button glyphs, time text, playlist listing) are not
part of the state; the state keeps exactly the fields the controller
reads back or that the specification talks about (playlist, current
index, playing flag, loop/shuffle, the object-URL handle set, the
scrub-drag flag, the error panel content, the saved-playlist notice and
the localStorage-backed store).  `Math.random()` is modelled as an
oracle value in `[0,1)` supplied with the event; JS `%` on integers is
`Int.tmod` (truncated remainder, sign of the dividend).
-/

namespace UMPlayer

/-- Tag of the DOM element created by `loadMedia` (`img`, `audio`, `video`). -/
inductive MediaTag where
  | img
  | audio
  | video
deriving DecidableEq

/-- A user-selected file as the controller sees it: `file.name`,
`file.type` (MIME string) and `file.size`. -/
structure MediaFile where
  name : String
  type : String
  size : Nat
deriving DecidableEq

/-- The live media element: its tag, the object URL it was given as
`src`, and the platform-side fields the controller reads or writes
(`currentTime`, `duration`, paused/playing, `muted`, `volume`).
`duration` starts at 0 standing for "not yet known" (NaN in the
browser); the platform sets it at `loadedmetadata`. -/
structure MediaEl where
  tag : MediaTag
  src : Nat
  currentTime : ℚ
  duration : ℚ
  elPlaying : Bool
  muted : Bool
  volume : ℚ
deriving DecidableEq

/-- The two localStorage keys the player uses.  `umpPlaylistMeta` is the
parsed JSON value of `ump_playlist_meta` (`none` = key absent, i.e.
`JSON.parse('null')`).  `umpIndex` models `ump_index`: `none` = key
absent (the code substitutes the string `'0'`), `some none` = a stored
string whose `Number(...)` is not finite, `some (some k)` = finite
integer `k`. -/
structure Store where
  umpPlaylistMeta : Option (List MediaFile)
  umpIndex : Option (Option ℤ)
deriving DecidableEq

/-- The mutable state of the `MediaPlayer` instance. -/
structure PlayerState where
  currentMedia : Option MediaEl
  playlist : List MediaFile
  currentIndex : ℤ
  isPlaying : Bool
  loop : Bool
  shuffle : Bool
  /-- `this.objectUrls` (a `Set`): object URLs created and not yet revoked.
  URLs are modelled as consecutive naturals issued from `nextUrl`, so every
  `URL.createObjectURL` result is fresh, as in the browser. -/
  objectUrls : List Nat
  nextUrl : Nat
  /-- URLs on which `URL.revokeObjectURL` has been called (bookkeeping for
  the release-only-at-teardown property; not a field of the JS object). -/
  revokedUrls : List Nat
  thumbDragging : Bool
  /-- `this.volumeSlider.value`. -/
  volumeSliderValue : ℚ
  /-- Content of the error panel shown by `showError` (`none` after
  `clearError`). -/
  lastError : Option String
  /-- Whether `restoreState` put the "Previously saved playlist" notice in
  the playlist element. -/
  savedPlaylistNotice : Bool
  store : Store
deriving DecidableEq

/-- `showError(message)`: replaces any previous error panel. -/
def showError (message : String) (s : PlayerState) : PlayerState :=
  { s with lastError := some message }

/-- `clearError()`. -/
def clearError (s : PlayerState) : PlayerState :=
  { s with lastError := none }

/-- `(file.type || '').split('/')[0] || 'unknown'`.  The first element of
`split('/')` is the run of characters before the first `'/'` (the whole
string when there is none), i.e. `takeWhile (· ≠ '/')`. -/
def mediaKindOf (f : MediaFile) : String :=
  let t : String := ⟨f.type.data.takeWhile (fun c => c ≠ '/')⟩
  if t = "" then "unknown" else t

/-- `saveState()`: writes the playlist metadata and the current index to
localStorage (the write never fails in the model; failures are swallowed
by the code anyway). -/
def saveState (s : PlayerState) : PlayerState :=
  { s with store :=
      { umpPlaylistMeta := some (s.playlist.map fun f => ⟨f.name, f.type, f.size⟩)
        umpIndex := some (some s.currentIndex) } }

/-- `loadMedia(file)`: clear the error, pause and drop the previous
element, create a new element of the file's kind with a fresh object URL
(registered in `objectUrls`), or report "Unsupported file type" and stop
with no element mounted. -/
def loadMedia (file : MediaFile) (s : PlayerState) : PlayerState :=
  let s := clearError s
  -- stop previous: `pause()` only applies to AUDIO/VIDEO elements
  let s :=
    match s.currentMedia with
    | some el =>
        if el.tag = MediaTag.audio ∨ el.tag = MediaTag.video then
          { s with currentMedia := some { el with elPlaying := false } }
        else s
    | none => s
  -- remove element: `this.currentMedia = null`
  let s := { s with currentMedia := none }
  let ty := mediaKindOf file
  if ty = "image" then
    let url := s.nextUrl
    { s with
        currentMedia := some
          { tag := MediaTag.img, src := url, currentTime := 0, duration := 0
            elPlaying := false, muted := false, volume := 1 }
        objectUrls := s.objectUrls ++ [url]
        nextUrl := url + 1 }
  else if ty = "audio" ∨ ty = "video" then
    let url := s.nextUrl
    { s with
        currentMedia := some
          { tag := if ty = "audio" then MediaTag.audio else MediaTag.video
            src := url, currentTime := 0, duration := 0
            elPlaying := false, muted := false
            -- `el.volume = this.volumeSlider.value / 100`
            volume := s.volumeSliderValue / 100 }
        objectUrls := s.objectUrls ++ [url]
        nextUrl := url + 1 }
  else
    showError "Unsupported file type" s

/-- The filter of `handleFiles`: keeps files whose MIME type starts with
`video/`, `audio/` or `image/` (`String.startsWith` stated on the
character lists). -/
def isSupportedMedia (f : MediaFile) : Bool :=
  "video/".data.isPrefixOf f.type.data || "audio/".data.isPrefixOf f.type.data ||
    "image/".data.isPrefixOf f.type.data

/-- `handleFiles(files)`: filter, report "No supported media files found"
on an empty filtered batch, otherwise append to the playlist; when no
element is mounted, point `currentIndex` at 0 and load the first item;
finally persist.  (The `if(this.playlist.length === 0) return;` line of
the source is unreachable: the filtered batch is non-empty there.) -/
def handleFiles (files : List MediaFile) (s : PlayerState) : PlayerState :=
  let mediaFiles := files.filter isSupportedMedia
  if mediaFiles.length = 0 then showError "No supported media files found" s
  else
    let s := { s with playlist := s.playlist ++ mediaFiles }
    let s :=
      if s.currentMedia.isNone then
        let s := { s with currentIndex := 0 }
        match s.playlist.head? with
        | some f => loadMedia f s
        | none => s
      else s
    saveState s

/-- `togglePlay()`: no-op without an element or on an image; otherwise
pause or request playback on the element and flip `isPlaying`.  The
`play()` promise may later reject; that rejection is the separate event
`playFailureCallback`. -/
def togglePlay (s : PlayerState) : PlayerState :=
  match s.currentMedia with
  | none => s
  | some el =>
      if el.tag = MediaTag.img then s
      else
        let s :=
          if s.isPlaying then
            { s with currentMedia := some { el with elPlaying := false } }
          else
            { s with currentMedia := some { el with elPlaying := true } }
        { s with isPlaying := !s.isPlaying }

/-- The rejection handler of `this.currentMedia.play().catch(...)` in
`togglePlay`: shows the autoplay error.  The platform side of the failed
start is that the element is not playing. -/
def playFailureCallback (s : PlayerState) : PlayerState :=
  let s :=
    match s.currentMedia with
    | some el => { s with currentMedia := some { el with elPlaying := false } }
    | none => s
  showError "Unable to play media (autoplay blocked?)" s

/-- The value of one `Math.random()` call: a rational in `[0,1)`. -/
abbrev UnitRand := { q : ℚ // 0 ≤ q ∧ q < 1 }

/-- JS array indexing `playlist[i]` for an integer index (negative or
out-of-range gives `undefined`). -/
def jsGet (l : List MediaFile) (i : ℤ) : Option MediaFile :=
  if 0 ≤ i then l[i.toNat]? else none

/-- `playNext()`: with shuffle, `Math.floor(Math.random()*length)`;
otherwise `(currentIndex + 1) % length` with the JS remainder.  Then
load the item at the new index and persist.  (If the lookup yielded
`undefined`, the JS would throw inside `loadMedia`; that branch is
unreachable whenever the index invariant holds and is modelled as a
stop.) -/
def playNext (r : UnitRand) (s : PlayerState) : PlayerState :=
  if s.playlist.length = 0 then s
  else
    let n : ℤ := s.playlist.length
    let i : ℤ :=
      if s.shuffle then ⌊r.val * (s.playlist.length : ℚ)⌋
      else (s.currentIndex + 1).tmod n
    let s := { s with currentIndex := i }
    match jsGet s.playlist i with
    | some f => saveState (loadMedia f s)
    | none => s

/-- `playPrevious()`: with shuffle as in `playNext`; otherwise
`(currentIndex - 1 + length) % length` with the JS remainder. -/
def playPrevious (r : UnitRand) (s : PlayerState) : PlayerState :=
  if s.playlist.length = 0 then s
  else
    let n : ℤ := s.playlist.length
    let i : ℤ :=
      if s.shuffle then ⌊r.val * (s.playlist.length : ℚ)⌋
      else (s.currentIndex - 1 + n).tmod n
    let s := { s with currentIndex := i }
    match jsGet s.playlist i with
    | some f => saveState (loadMedia f s)
    | none => s

/-- `onMediaEnded()`: with loop, rewind the same element to 0 and play it
again; without loop, exactly `playNext()`.  (The `ended` event only
fires from the live element, so `currentMedia` is present in the loop
branch; a null element would make the JS throw.) -/
def onMediaEnded (r : UnitRand) (s : PlayerState) : PlayerState :=
  if s.loop then
    match s.currentMedia with
    | some el =>
        { s with currentMedia := some { el with currentTime := 0, elPlaying := true } }
    | none => s
  else playNext r s

/-- `Math.max(0, Math.min(1, x))`, the clamp both `seek` and
`endThumbDrag` apply to the raw fraction. -/
def clampFraction (x : ℚ) : ℚ := max 0 (min 1 x)

/-- `seek(e)` with `x = (clientX - rect.left) / rect.width` the raw
(un-clamped) fraction read off the pointer event. -/
def seek (x : ℚ) (s : PlayerState) : PlayerState :=
  match s.currentMedia with
  | none => s
  | some el =>
      if el.tag = MediaTag.img then s
      else
        { s with currentMedia :=
                  some { el with currentTime := clampFraction x * el.duration } }

/-- `startThumbDrag(e)`. -/
def startThumbDrag (s : PlayerState) : PlayerState :=
  { s with thumbDragging := true }

/-- `onThumbMove(e)`: only moves the visual progress fill; no state the
controller reads back changes. -/
def onThumbMove (_x : ℚ) (s : PlayerState) : PlayerState := s

/-- `endThumbDrag(e)` with `x` the raw fraction as in `seek`: ignore the
event when not dragging, otherwise clear the flag first and only then
bail out on a missing/image element. -/
def endThumbDrag (x : ℚ) (s : PlayerState) : PlayerState :=
  if !s.thumbDragging then s
  else
    let s := { s with thumbDragging := false }
    match s.currentMedia with
    | none => s
    | some el =>
        if el.tag = MediaTag.img then s
        else
          { s with currentMedia :=
                    some { el with currentTime := clampFraction x * el.duration } }

/-- `toggleMute()`. -/
def toggleMute (s : PlayerState) : PlayerState :=
  match s.currentMedia with
  | none => s
  | some el =>
      if el.tag = MediaTag.img then s
      else { s with currentMedia := some { el with muted := !el.muted } }

/-- `setVolume(value)`. -/
def setVolume (v : ℚ) (s : PlayerState) : PlayerState :=
  match s.currentMedia with
  | none => s
  | some el =>
      if el.tag = MediaTag.img then s
      else { s with currentMedia := some { el with volume := v / 100 } }

/-- `toggleLoop()` (the button opacity is visual only). -/
def toggleLoop (s : PlayerState) : PlayerState :=
  { s with loop := !s.loop }

/-- `toggleShuffle()`. -/
def toggleShuffle (s : PlayerState) : PlayerState :=
  { s with shuffle := !s.shuffle }

/-- The keys `handleKeyboard` reacts to. -/
inductive Key where
  | space
  | arrowLeft
  | arrowRight
  | arrowUp
  | arrowDown
  | other
deriving DecidableEq

/-- `handleKeyboard(e)`. -/
def handleKeyboard (k : Key) (s : PlayerState) : PlayerState :=
  match s.currentMedia with
  | none => s
  | some el =>
      if el.tag = MediaTag.img then s
      else
        match k with
        | Key.space => togglePlay s
        | Key.arrowLeft =>
            { s with currentMedia :=
                        some { el with currentTime := max 0 (el.currentTime - 5) } }
        | Key.arrowRight =>
            { s with currentMedia :=
                        some { el with currentTime := min el.duration (el.currentTime + 5) } }
        | Key.arrowUp =>
            let v := min 100 (s.volumeSliderValue + 10)
            setVolume v { s with volumeSliderValue := v }
        | Key.arrowDown =>
            let v := max 0 (s.volumeSliderValue - 10)
            setVolume v { s with volumeSliderValue := v }
        | Key.other => s

/-- The per-item "Play" button created by `updatePlaylist`: sets
`currentIndex` and loads that item.  The DOM only holds such a button
for an existing index, hence the guard. -/
def selectPlaylistItem (i : Nat) (s : PlayerState) : PlayerState :=
  if i < s.playlist.length then
    let s := { s with currentIndex := (i : ℤ) }
    match s.playlist[i]? with
    | some f => saveState (loadMedia f s)
    | none => s
  else s

/-- `cleanupUrls()`: revoke every outstanding object URL and clear the
set (bound to `beforeunload`). -/
def cleanupUrls (s : PlayerState) : PlayerState :=
  { s with revokedUrls := s.revokedUrls ++ s.objectUrls, objectUrls := [] }

/-- `restoreState()`: read the two store keys; a non-empty saved
playlist only puts the notice in the playlist element; then
`currentIndex = isFinite(idx) ? idx : 0`. -/
def restoreState (s : PlayerState) : PlayerState :=
  let idx : Option ℤ :=
    match s.store.umpIndex with
    | none => some 0        -- `getItem` null, `Number('0') = 0`
    | some v => v
  let s :=
    match s.store.umpPlaylistMeta with
    | some meta => if 0 < meta.length then { s with savedPlaylistNotice := true } else s
    | none => s
  { s with currentIndex := idx.getD 0 }

/-- The field initialisers of the constructor, before `restoreState`
runs.  The slider's initial value comes from the markup and is a
parameter. -/
def mkPlayer (store : Store) (sliderValue : ℚ) : PlayerState :=
  { currentMedia := none, playlist := [], currentIndex := 0, isPlaying := false
    loop := false, shuffle := false, objectUrls := [], nextUrl := 0
    revokedUrls := [], thumbDragging := false, volumeSliderValue := sliderValue
    lastError := none, savedPlaylistNotice := false, store := store }

/-- `new MediaPlayer()`: field initialisers, then `restoreState()`. -/
def initState (store : Store) (sliderValue : ℚ) : PlayerState :=
  restoreState (mkPlayer store sliderValue)

/-- One externally triggered event, with the oracle values it consumes. -/
inductive Op where
  | handleFiles (files : List MediaFile)
  | togglePlay
  | playPrevious (r : UnitRand)
  | playNext (r : UnitRand)
  | onMediaEnded (r : UnitRand)
  | toggleMute
  | setVolume (v : ℚ)
  | seek (x : ℚ)
  | toggleLoop
  | toggleShuffle
  | startThumbDrag
  | onThumbMove (x : ℚ)
  | endThumbDrag (x : ℚ)
  | handleKeyboard (k : Key)
  | selectPlaylistItem (i : Nat)
  | playFailureCallback
  | cleanupUrls
deriving DecidableEq

/-- Dispatch an event to its handler. -/
def step (op : Op) (s : PlayerState) : PlayerState :=
  match op with
  | Op.handleFiles files => handleFiles files s
  | Op.togglePlay => togglePlay s
  | Op.playPrevious r => playPrevious r s
  | Op.playNext r => playNext r s
  | Op.onMediaEnded r => onMediaEnded r s
  | Op.toggleMute => toggleMute s
  | Op.setVolume v => setVolume v s
  | Op.seek x => seek x s
  | Op.toggleLoop => toggleLoop s
  | Op.toggleShuffle => toggleShuffle s
  | Op.startThumbDrag => startThumbDrag s
  | Op.onThumbMove x => onThumbMove x s
  | Op.endThumbDrag x => endThumbDrag x s
  | Op.handleKeyboard k => handleKeyboard k s
  | Op.selectPlaylistItem i => selectPlaylistItem i s
  | Op.playFailureCallback => playFailureCallback s
  | Op.cleanupUrls => cleanupUrls s

/-- Run a sequence of events. -/
def run (ops : List Op) (s : PlayerState) : PlayerState :=
  ops.foldl (fun t op => step op t) s

/-! ### Concrete fixtures used by witnesses and counterexamples -/

/-- An audio file. -/
def audioFileA : MediaFile := { name := "a.mp3", type := "audio/mpeg", size := 3 }

/-- A second audio file. -/
def audioFileB : MediaFile := { name := "b.mp3", type := "audio/mpeg", size := 4 }

/-- A file of an unsupported MIME type. -/
def textFile : MediaFile := { name := "t.txt", type := "text/plain", size := 5 }

/-- An image file. -/
def imageFile : MediaFile := { name := "p.png", type := "image/png", size := 6 }

/-- A localStorage with neither key present. -/
def emptyStore : Store := { umpPlaylistMeta := none, umpIndex := none }

/-- A localStorage remembering index 7. -/
def store7 : Store := { umpPlaylistMeta := none, umpIndex := some (some 7) }

/-- A `Math.random()` outcome of one half. -/
def rHalf : UnitRand := ⟨1/2, by norm_num⟩

/-- The element `loadMedia` mounts for `audioFileA` in a fresh player whose
volume slider is at 100. -/
def audioElA : MediaEl :=
  { tag := MediaTag.audio, src := 0, currentTime := 0, duration := 0
    elPlaying := false, muted := false, volume := (100 : ℚ) / 100 }

/-- A player that loaded two audio files and is playing the first. -/
def playingState : PlayerState :=
  run [Op.handleFiles [audioFileA, audioFileB], Op.togglePlay] (initState emptyStore 100)

/-- A player that requested playback of an audio file and then received the
platform's asynchronous failure callback. -/
def failedStartState : PlayerState :=
  run [Op.handleFiles [audioFileA], Op.togglePlay, Op.playFailureCallback]
    (initState emptyStore 100)

/-- A player with an audio file loaded and a scrub drag in progress. -/
def draggingState : PlayerState :=
  run [Op.handleFiles [audioFileA], Op.startThumbDrag] (initState emptyStore 100)

/-- A player that loaded an audio file and turned loop on. -/
def loopingState : PlayerState :=
  run [Op.handleFiles [audioFileA], Op.toggleLoop] (initState emptyStore 100)

/-- A player holding one audio track. -/
def oneTrackState : PlayerState :=
  run [Op.handleFiles [audioFileA]] (initState emptyStore 100)

/-- A player holding two audio tracks, at index 0, shuffle off. -/
def twoTrackState : PlayerState :=
  run [Op.handleFiles [audioFileA, audioFileB]] (initState emptyStore 100)

/-- The two-track player with shuffle turned on. -/
def shuffledState : PlayerState :=
  run [Op.toggleShuffle] twoTrackState

/-! ### Invariants -/

/-- The index invariant of the specification's data model:
`0 <= currentIndex < len(playlist)` whenever the playlist is non-empty. -/
def IndexInvariant (s : PlayerState) : Prop :=
  s.playlist ≠ [] → 0 ≤ s.currentIndex ∧ s.currentIndex < s.playlist.length

/-- Strengthening used in the preservation proof: additionally, a mounted
element implies a non-empty playlist. -/
def ControllerInvariant (s : PlayerState) : Prop :=
  IndexInvariant s ∧ (s.currentMedia.isSome = true → s.playlist ≠ [])

/-! ### Frame lemmas -/

theorem loadMedia_playlist (f : MediaFile) (s : PlayerState) :
    (loadMedia f s).playlist = s.playlist := by
  unfold loadMedia clearError showError
  rcases hm : s.currentMedia with _ | el <;> simp only [hm] <;>
    split_ifs <;> rfl

theorem loadMedia_currentIndex (f : MediaFile) (s : PlayerState) :
    (loadMedia f s).currentIndex = s.currentIndex := by
  unfold loadMedia clearError showError
  rcases hm : s.currentMedia with _ | el <;> simp only [hm] <;>
    split_ifs <;> rfl

theorem loadMedia_isPlaying (f : MediaFile) (s : PlayerState) :
    (loadMedia f s).isPlaying = s.isPlaying := by
  unfold loadMedia clearError showError
  rcases hm : s.currentMedia with _ | el <;> simp only [hm] <;>
    split_ifs <;> rfl

theorem loadMedia_revokedUrls (f : MediaFile) (s : PlayerState) :
    (loadMedia f s).revokedUrls = s.revokedUrls := by
  unfold loadMedia clearError showError
  rcases hm : s.currentMedia with _ | el <;> simp only [hm] <;>
    split_ifs <;> rfl

theorem loadMedia_store (f : MediaFile) (s : PlayerState) :
    (loadMedia f s).store = s.store := by
  unfold loadMedia clearError showError
  rcases hm : s.currentMedia with _ | el <;> simp only [hm] <;>
    split_ifs <;> rfl

theorem loadMedia_isSome_of_kind (f : MediaFile) (s : PlayerState)
    (h : mediaKindOf f = "image" ∨ mediaKindOf f = "audio" ∨ mediaKindOf f = "video") :
    (loadMedia f s).currentMedia.isSome = true := by
  unfold loadMedia clearError showError
  rcases hm : s.currentMedia with _ | el <;> simp only [hm] <;>
    rcases h with h | h | h <;> simp [h] <;> split_ifs <;> simp

theorem saveState_only_store (s : PlayerState) :
    (saveState s).playlist = s.playlist ∧ (saveState s).currentIndex = s.currentIndex ∧
      (saveState s).isPlaying = s.isPlaying ∧ (saveState s).currentMedia = s.currentMedia ∧
      (saveState s).revokedUrls = s.revokedUrls := by
  refine ⟨rfl, rfl, rfl, rfl, rfl⟩

theorem handleFiles_revokedUrls (files : List MediaFile) (s : PlayerState) :
    (handleFiles files s).revokedUrls = s.revokedUrls := by
  unfold handleFiles
  by_cases hlen : (files.filter isSupportedMedia).length = 0
  · simp [hlen, showError]
  · rcases hm : s.currentMedia with _ | el
    · rcases hh : (s.playlist ++ files.filter isSupportedMedia).head? with _ | f <;>
        simp [hlen, hm, hh, saveState, loadMedia_revokedUrls]
    · simp [hlen, hm, saveState]

theorem togglePlay_revokedUrls (s : PlayerState) :
    (togglePlay s).revokedUrls = s.revokedUrls := by
  unfold togglePlay
  rcases hm : s.currentMedia with _ | el <;> simp [hm] <;> split_ifs <;> rfl

theorem playNext_revokedUrls (r : UnitRand) (s : PlayerState) :
    (playNext r s).revokedUrls = s.revokedUrls := by
  unfold playNext
  split
  · rfl
  · dsimp only
    split
    · simp [saveState, loadMedia_revokedUrls]
    · rfl

theorem playPrevious_revokedUrls (r : UnitRand) (s : PlayerState) :
    (playPrevious r s).revokedUrls = s.revokedUrls := by
  unfold playPrevious
  split
  · rfl
  · dsimp only
    split
    · simp [saveState, loadMedia_revokedUrls]
    · rfl

theorem onMediaEnded_revokedUrls (r : UnitRand) (s : PlayerState) :
    (onMediaEnded r s).revokedUrls = s.revokedUrls := by
  unfold onMediaEnded
  split
  · rcases hm : s.currentMedia with _ | el <;> simp [hm]
  · exact playNext_revokedUrls r s

theorem toggleMute_revokedUrls (s : PlayerState) :
    (toggleMute s).revokedUrls = s.revokedUrls := by
  unfold toggleMute
  rcases hm : s.currentMedia with _ | el <;> simp [hm] <;> split_ifs <;> rfl

theorem setVolume_revokedUrls (v : ℚ) (s : PlayerState) :
    (setVolume v s).revokedUrls = s.revokedUrls := by
  unfold setVolume
  rcases hm : s.currentMedia with _ | el <;> simp [hm] <;> split_ifs <;> rfl

theorem seek_revokedUrls (x : ℚ) (s : PlayerState) :
    (seek x s).revokedUrls = s.revokedUrls := by
  unfold seek
  rcases hm : s.currentMedia with _ | el <;> simp [hm] <;> split_ifs <;> rfl

theorem endThumbDrag_revokedUrls (x : ℚ) (s : PlayerState) :
    (endThumbDrag x s).revokedUrls = s.revokedUrls := by
  unfold endThumbDrag
  rcases hb : s.thumbDragging <;> simp [hb]
  rcases hm : s.currentMedia with _ | el <;> simp [hm] <;> split_ifs <;> rfl

theorem handleKeyboard_revokedUrls (k : Key) (s : PlayerState) :
    (handleKeyboard k s).revokedUrls = s.revokedUrls := by
  unfold handleKeyboard
  rcases hm : s.currentMedia with _ | el <;> simp [hm]
  split_ifs
  · rfl
  · cases k <;>
      simp [togglePlay_revokedUrls, setVolume_revokedUrls]

theorem selectPlaylistItem_revokedUrls (i : Nat) (s : PlayerState) :
    (selectPlaylistItem i s).revokedUrls = s.revokedUrls := by
  unfold selectPlaylistItem
  split
  · dsimp only
    split
    · simp [saveState, loadMedia_revokedUrls]
    · rfl
  · rfl

theorem playFailureCallback_revokedUrls (s : PlayerState) :
    (playFailureCallback s).revokedUrls = s.revokedUrls := by
  unfold playFailureCallback showError
  rcases hm : s.currentMedia with _ | el <;> simp [hm]

theorem step_revokedUrls (op : Op) (s : PlayerState) (hop : op ≠ Op.cleanupUrls) :
    (step op s).revokedUrls = s.revokedUrls := by
  cases op with
  | handleFiles files => exact handleFiles_revokedUrls files s
  | togglePlay => exact togglePlay_revokedUrls s
  | playPrevious r => exact playPrevious_revokedUrls r s
  | playNext r => exact playNext_revokedUrls r s
  | onMediaEnded r => exact onMediaEnded_revokedUrls r s
  | toggleMute => exact toggleMute_revokedUrls s
  | setVolume v => exact setVolume_revokedUrls v s
  | seek x => exact seek_revokedUrls x s
  | toggleLoop => rfl
  | toggleShuffle => rfl
  | startThumbDrag => rfl
  | onThumbMove x => rfl
  | endThumbDrag x => exact endThumbDrag_revokedUrls x s
  | handleKeyboard k => exact handleKeyboard_revokedUrls k s
  | selectPlaylistItem i => exact selectPlaylistItem_revokedUrls i s
  | playFailureCallback => exact playFailureCallback_revokedUrls s
  | cleanupUrls => exact absurd rfl hop

theorem playNext_playlist (r : UnitRand) (s : PlayerState) :
    (playNext r s).playlist = s.playlist := by
  unfold playNext
  split
  · rfl
  · dsimp only
    split
    · simp [saveState, loadMedia_playlist]
    · rfl

theorem playPrevious_playlist (r : UnitRand) (s : PlayerState) :
    (playPrevious r s).playlist = s.playlist := by
  unfold playPrevious
  split
  · rfl
  · dsimp only
    split
    · simp [saveState, loadMedia_playlist]
    · rfl

theorem playNext_currentIndex (r : UnitRand) (s : PlayerState)
    (h : ¬s.playlist.length = 0) :
    (playNext r s).currentIndex =
      if s.shuffle then ⌊r.val * (s.playlist.length : ℚ)⌋
      else (s.currentIndex + 1).tmod (s.playlist.length : ℤ) := by
  unfold playNext
  rw [if_neg h]
  dsimp only
  split
  · simp [saveState, loadMedia_currentIndex]
  · rfl

theorem playPrevious_currentIndex (r : UnitRand) (s : PlayerState)
    (h : ¬s.playlist.length = 0) :
    (playPrevious r s).currentIndex =
      if s.shuffle then ⌊r.val * (s.playlist.length : ℚ)⌋
      else (s.currentIndex - 1 + (s.playlist.length : ℤ)).tmod (s.playlist.length : ℤ) := by
  unfold playPrevious
  rw [if_neg h]
  dsimp only
  split
  · simp [saveState, loadMedia_currentIndex]
  · rfl

/-- `Math.floor(Math.random() * n)` lies in `[0, n)` for `n ≥ 1`. -/
theorem floor_rand_bounds (r : UnitRand) (n : ℕ) (hn : 0 < n) :
    0 ≤ ⌊r.val * (n : ℚ)⌋ ∧ ⌊r.val * (n : ℚ)⌋ < (n : ℤ) := by
  obtain ⟨q, hq0, hq1⟩ := r
  constructor
  · exact Int.le_floor.mpr (by push_cast; exact mul_nonneg hq0 (Nat.cast_nonneg n))
  · refine Int.floor_lt.mpr ?_
    push_cast
    have hn' : (0 : ℚ) < n := by exact_mod_cast hn
    nlinarith

/-- The JS remainder of a non-negative dividend by a positive divisor lies
in `[0, divisor)` and agrees with the mathematical remainder. -/
theorem tmod_bounds (a n : ℤ) (ha : 0 ≤ a) (hn : 0 < n) :
    0 ≤ a.tmod n ∧ a.tmod n < n := by
  rw [Int.tmod_eq_emod ha (le_of_lt hn)]
  exact ⟨Int.emod_nonneg a (by omega), Int.emod_lt_of_pos a hn⟩

theorem restoreState_playlist (s : PlayerState) :
    (restoreState s).playlist = s.playlist := by
  unfold restoreState
  rcases hmeta : s.store.umpPlaylistMeta with _ | meta <;> simp [hmeta] <;>
    split_ifs <;> rfl

theorem restoreState_currentMedia (s : PlayerState) :
    (restoreState s).currentMedia = s.currentMedia := by
  unfold restoreState
  rcases hmeta : s.store.umpPlaylistMeta with _ | meta <;> simp [hmeta] <;>
    split_ifs <;> rfl

theorem controllerInvariant_of_frame {s t : PlayerState}
    (hp : t.playlist = s.playlist) (hi : t.currentIndex = s.currentIndex)
    (hm : t.currentMedia.isSome = s.currentMedia.isSome)
    (h : ControllerInvariant s) : ControllerInvariant t := by
  obtain ⟨h1, h2⟩ := h
  constructor
  · intro hne
    rw [hp] at hne
    rw [hi, hp]
    exact h1 hne
  · intro hsome
    rw [hm] at hsome
    rw [hp]
    exact h2 hsome

theorem togglePlay_frame (s : PlayerState) :
    (togglePlay s).playlist = s.playlist ∧
      (togglePlay s).currentIndex = s.currentIndex ∧
      (togglePlay s).currentMedia.isSome = s.currentMedia.isSome := by
  unfold togglePlay
  rcases hm : s.currentMedia with _ | el <;> refine ⟨?_, ?_, ?_⟩ <;>
    simp [hm] <;> split_ifs <;> simp [hm]

theorem toggleMute_frame (s : PlayerState) :
    (toggleMute s).playlist = s.playlist ∧
      (toggleMute s).currentIndex = s.currentIndex ∧
      (toggleMute s).currentMedia.isSome = s.currentMedia.isSome := by
  unfold toggleMute
  rcases hm : s.currentMedia with _ | el <;> refine ⟨?_, ?_, ?_⟩ <;>
    simp [hm] <;> split_ifs <;> simp [hm]

theorem setVolume_frame (v : ℚ) (s : PlayerState) :
    (setVolume v s).playlist = s.playlist ∧
      (setVolume v s).currentIndex = s.currentIndex ∧
      (setVolume v s).currentMedia.isSome = s.currentMedia.isSome := by
  unfold setVolume
  rcases hm : s.currentMedia with _ | el <;> refine ⟨?_, ?_, ?_⟩ <;>
    simp [hm] <;> split_ifs <;> simp [hm]

theorem seek_frame (x : ℚ) (s : PlayerState) :
    (seek x s).playlist = s.playlist ∧
      (seek x s).currentIndex = s.currentIndex ∧
      (seek x s).currentMedia.isSome = s.currentMedia.isSome := by
  unfold seek
  rcases hm : s.currentMedia with _ | el <;> refine ⟨?_, ?_, ?_⟩ <;>
    simp [hm] <;> split_ifs <;> simp [hm]

theorem endThumbDrag_frame (x : ℚ) (s : PlayerState) :
    (endThumbDrag x s).playlist = s.playlist ∧
      (endThumbDrag x s).currentIndex = s.currentIndex ∧
      (endThumbDrag x s).currentMedia.isSome = s.currentMedia.isSome := by
  unfold endThumbDrag
  rcases hb : s.thumbDragging <;> simp only [hb, Bool.not_true, Bool.not_false]
  · simp
  · rcases hm : s.currentMedia with _ | el <;> refine ⟨?_, ?_, ?_⟩ <;>
      simp [hm] <;> split_ifs <;> simp [hm]

theorem handleKeyboard_frame (k : Key) (s : PlayerState) :
    (handleKeyboard k s).playlist = s.playlist ∧
      (handleKeyboard k s).currentIndex = s.currentIndex ∧
      (handleKeyboard k s).currentMedia.isSome = s.currentMedia.isSome := by
  unfold handleKeyboard
  rcases hm : s.currentMedia with _ | el
  · simp [hm]
  · simp only [hm]
    split_ifs with htag
    · simp [hm]
    · cases k <;> dsimp only
      · obtain ⟨h1, h2, h3⟩ := togglePlay_frame s
        exact ⟨h1, h2, by rw [h3, hm]⟩
      · exact ⟨rfl, rfl, by simp [hm]⟩
      · exact ⟨rfl, rfl, by simp [hm]⟩
      · refine ⟨?_, ?_, ?_⟩ <;> simp [setVolume, hm] <;> split_ifs <;> simp [hm]
      · refine ⟨?_, ?_, ?_⟩ <;> simp [setVolume, hm] <;> split_ifs <;> simp [hm]
      · simp [hm]

theorem playFailureCallback_frame (s : PlayerState) :
    (playFailureCallback s).playlist = s.playlist ∧
      (playFailureCallback s).currentIndex = s.currentIndex ∧
      (playFailureCallback s).currentMedia.isSome = s.currentMedia.isSome := by
  unfold playFailureCallback showError
  rcases hm : s.currentMedia with _ | el <;> refine ⟨?_, ?_, ?_⟩ <;> simp [hm]

/-- Shared content of the C4 claim: the effect of a non-empty filtered
batch on playlist and index. -/
theorem handleFiles_nonempty_effects (files : List MediaFile) (s : PlayerState)
    (h : files.filter isSupportedMedia ≠ []) :
    (handleFiles files s).playlist = s.playlist ++ files.filter isSupportedMedia ∧
      (s.currentMedia.isSome = true →
        (handleFiles files s).currentIndex = s.currentIndex) ∧
      (s.currentMedia = none → (handleFiles files s).currentIndex = 0) := by
  have hne : ¬((files.filter isSupportedMedia).length = 0) := by
    simpa [List.length_eq_zero] using h
  rcases hm : s.currentMedia with _ | el
  · rcases hh : (s.playlist ++ files.filter isSupportedMedia).head? with _ | f
    · refine ⟨?_, ?_, ?_⟩ <;> simp [handleFiles, hne, hm, hh, saveState]
    · refine ⟨?_, ?_, ?_⟩ <;>
        simp [handleFiles, hne, hm, hh, saveState, loadMedia_playlist,
          loadMedia_currentIndex]
  · refine ⟨?_, ?_, ?_⟩ <;> simp [handleFiles, hne, hm, saveState]

/-- When no session exists, a non-empty filtered batch makes `handleFiles`
load item 0 of the updated playlist: the result is exactly the load of
the first item followed by the persist. -/
theorem handleFiles_loads_first (files : List MediaFile) (s : PlayerState)
    (h : files.filter isSupportedMedia ≠ []) (hm : s.currentMedia = none)
    (f0 : MediaFile)
    (hh : (s.playlist ++ files.filter isSupportedMedia).head? = some f0) :
    handleFiles files s =
      saveState (loadMedia f0
        { s with
            playlist := s.playlist ++ files.filter isSupportedMedia
            currentIndex := 0 }) := by
  have hne : ¬((files.filter isSupportedMedia).length = 0) := by
    simpa [List.length_eq_zero] using h
  simp [handleFiles, hne, hm, hh]

theorem handleFiles_preserves_inv (files : List MediaFile) (s : PlayerState)
    (h : ControllerInvariant s) : ControllerInvariant (handleFiles files s) := by
  by_cases hlen : (files.filter isSupportedMedia).length = 0
  · refine controllerInvariant_of_frame ?_ ?_ ?_ h <;>
      simp [handleFiles, hlen, showError]
  · have hne : files.filter isSupportedMedia ≠ [] := fun hcon => hlen (by simp [hcon])
    obtain ⟨hpl, hidxSome, hidxNone⟩ := handleFiles_nonempty_effects files s hne
    unfold ControllerInvariant IndexInvariant at h ⊢
    constructor
    · intro _
      rcases hm : s.currentMedia with _ | el
      · rw [hidxNone hm, hpl]
        refine ⟨le_refl 0, ?_⟩
        have : (s.playlist ++ files.filter isSupportedMedia).length ≠ 0 := by
          simp [hne]
        omega
      · have hsome : s.currentMedia.isSome = true := by simp [hm]
        rw [hidxSome hsome, hpl]
        have hplne : s.playlist ≠ [] := h.2 hsome
        obtain ⟨hb1, hb2⟩ := h.1 hplne
        refine ⟨hb1, ?_⟩
        rw [List.length_append]
        push_cast
        omega
    · intro _
      rw [hpl]
      simp [hne]

theorem playNext_preserves_inv (r : UnitRand) (s : PlayerState)
    (h : ControllerInvariant s) : ControllerInvariant (playNext r s) := by
  by_cases hlen : s.playlist.length = 0
  · unfold playNext
    rw [if_pos hlen]
    exact h
  · have hpl := playNext_playlist r s
    have hidx := playNext_currentIndex r s hlen
    have hplne : s.playlist ≠ [] := by
      intro hcon
      exact hlen (by simp [hcon])
    unfold ControllerInvariant IndexInvariant at h ⊢
    constructor
    · intro _
      rw [hidx, hpl]
      split_ifs with hs
      · exact floor_rand_bounds r s.playlist.length (Nat.pos_of_ne_zero hlen)
      · obtain ⟨hb1, hb2⟩ := h.1 hplne
        exact tmod_bounds _ _ (by omega) (by omega)
    · intro _
      rw [hpl]
      exact hplne

theorem playPrevious_preserves_inv (r : UnitRand) (s : PlayerState)
    (h : ControllerInvariant s) : ControllerInvariant (playPrevious r s) := by
  by_cases hlen : s.playlist.length = 0
  · unfold playPrevious
    rw [if_pos hlen]
    exact h
  · have hpl := playPrevious_playlist r s
    have hidx := playPrevious_currentIndex r s hlen
    have hplne : s.playlist ≠ [] := by
      intro hcon
      exact hlen (by simp [hcon])
    unfold ControllerInvariant IndexInvariant at h ⊢
    constructor
    · intro _
      rw [hidx, hpl]
      split_ifs with hs
      · exact floor_rand_bounds r s.playlist.length (Nat.pos_of_ne_zero hlen)
      · obtain ⟨hb1, hb2⟩ := h.1 hplne
        exact tmod_bounds _ _ (by omega) (by omega)
    · intro _
      rw [hpl]
      exact hplne

theorem onMediaEnded_preserves_inv (r : UnitRand) (s : PlayerState)
    (h : ControllerInvariant s) : ControllerInvariant (onMediaEnded r s) := by
  unfold onMediaEnded
  split_ifs with hl
  · rcases hm : s.currentMedia with _ | el <;> simp only [hm]
    · exact h
    · refine controllerInvariant_of_frame ?_ ?_ ?_ h <;> simp [hm]
  · exact playNext_preserves_inv r s h

theorem inv_of_parts {t : PlayerState} (hp : t.playlist ≠ [])
    (hb : 0 ≤ t.currentIndex ∧ t.currentIndex < t.playlist.length) :
    ControllerInvariant t :=
  ⟨fun _ => hb, fun _ => hp⟩

theorem selectPlaylistItem_preserves_inv (i : Nat) (s : PlayerState)
    (h : ControllerInvariant s) : ControllerInvariant (selectPlaylistItem i s) := by
  unfold selectPlaylistItem
  split_ifs with hi
  · have hplne : s.playlist ≠ [] := by
      intro hcon
      rw [hcon] at hi
      simp at hi
    dsimp only
    rcases hf : s.playlist[i]? with _ | f <;> simp only [hf]
    · refine inv_of_parts hplne ?_
      show 0 ≤ (i : ℤ) ∧ (i : ℤ) < (s.playlist.length : ℤ)
      exact ⟨Int.ofNat_nonneg i, by exact_mod_cast hi⟩
    · have e1 : (saveState (loadMedia f { s with currentIndex := (i : ℤ) })).currentIndex =
          (i : ℤ) := by
        rw [(saveState_only_store _).2.1, loadMedia_currentIndex]
      have e2 : (saveState (loadMedia f { s with currentIndex := (i : ℤ) })).playlist =
          s.playlist := by
        rw [(saveState_only_store _).1, loadMedia_playlist]
      refine inv_of_parts (by rw [e2]; exact hplne) ?_
      rw [e1, e2]
      exact ⟨Int.ofNat_nonneg i, by exact_mod_cast hi⟩
  · exact h

theorem step_preserves_inv (op : Op) (s : PlayerState)
    (h : ControllerInvariant s) : ControllerInvariant (step op s) := by
  cases op with
  | handleFiles files => exact handleFiles_preserves_inv files s h
  | togglePlay =>
      obtain ⟨h1, h2, h3⟩ := togglePlay_frame s
      exact controllerInvariant_of_frame h1 h2 h3 h
  | playPrevious r => exact playPrevious_preserves_inv r s h
  | playNext r => exact playNext_preserves_inv r s h
  | onMediaEnded r => exact onMediaEnded_preserves_inv r s h
  | toggleMute =>
      obtain ⟨h1, h2, h3⟩ := toggleMute_frame s
      exact controllerInvariant_of_frame h1 h2 h3 h
  | setVolume v =>
      obtain ⟨h1, h2, h3⟩ := setVolume_frame v s
      exact controllerInvariant_of_frame h1 h2 h3 h
  | seek x =>
      obtain ⟨h1, h2, h3⟩ := seek_frame x s
      exact controllerInvariant_of_frame h1 h2 h3 h
  | toggleLoop => exact controllerInvariant_of_frame rfl rfl rfl h
  | toggleShuffle => exact controllerInvariant_of_frame rfl rfl rfl h
  | startThumbDrag => exact controllerInvariant_of_frame rfl rfl rfl h
  | onThumbMove x => exact controllerInvariant_of_frame rfl rfl rfl h
  | endThumbDrag x =>
      obtain ⟨h1, h2, h3⟩ := endThumbDrag_frame x s
      exact controllerInvariant_of_frame h1 h2 h3 h
  | handleKeyboard k =>
      obtain ⟨h1, h2, h3⟩ := handleKeyboard_frame k s
      exact controllerInvariant_of_frame h1 h2 h3 h
  | selectPlaylistItem i => exact selectPlaylistItem_preserves_inv i s h
  | playFailureCallback =>
      obtain ⟨h1, h2, h3⟩ := playFailureCallback_frame s
      exact controllerInvariant_of_frame h1 h2 h3 h
  | cleanupUrls => exact controllerInvariant_of_frame rfl rfl rfl h

theorem initState_inv (store : Store) (vol : ℚ) :
    ControllerInvariant (initState store vol) := by
  unfold ControllerInvariant IndexInvariant initState
  constructor
  · intro hne
    exact absurd ((restoreState_playlist (mkPlayer store vol)).trans rfl) hne
  · intro hsome
    rw [restoreState_currentMedia (mkPlayer store vol)] at hsome
    simp [mkPlayer] at hsome

theorem run_preserves_inv (ops : List Op) (s : PlayerState)
    (h : ControllerInvariant s) : ControllerInvariant (run ops s) := by
  induction ops generalizing s with
  | nil => exact h
  | cons op ops ih => exact ih (step op s) (step_preserves_inv op s h)

/-! ### Claims -/

/-- C1 counterexample: at `playingState` (reachable: add two audio files,
press play) a load of the second item completes successfully
(`currentMedia` is mounted) yet the playing flag is still `true`, not
`false` as the claim states. -/
theorem c1_counterexample :
    (loadMedia audioFileB playingState).currentMedia.isSome = true ∧
      (loadMedia audioFileB playingState).isPlaying = true := by
  constructor
  · decide
  · decide

/-- C1 (amended): a completed load leaves the `playing` flag exactly as it
was — `loadMedia` pauses the superseded element but never writes
`isPlaying`, so switching items does not reset the state machine to
Loaded-Paused. -/
theorem c1_load_leaves_playing_flag_unchanged (file : MediaFile) (s : PlayerState) :
    (loadMedia file s).isPlaying = s.isPlaying :=
  loadMedia_isPlaying file s

/-- C2 counterexample: after `togglePlay` requested playback and the
platform primitive failed, the error is surfaced but the playing flag is
`true`, not `false` as the claim states. -/
theorem c2_counterexample :
    failedStartState.isPlaying = true ∧
      failedStartState.lastError = some "Unable to play media (autoplay blocked?)" := by
  constructor
  · decide
  · decide

/-- C2 (amended): the failure handler surfaces the autoplay error but
leaves the `playing` flag unchanged (in particular still `true` when the
failed start had set it). -/
theorem c2_failure_surfaces_error_keeps_flag (s : PlayerState) :
    (playFailureCallback s).isPlaying = s.isPlaying ∧
      (playFailureCallback s).lastError = some "Unable to play media (autoplay blocked?)" := by
  unfold playFailureCallback showError
  rcases hm : s.currentMedia with _ | el <;> simp [hm]

/-- C8: both `seek` and `endScrub` clamp the raw input fraction to `[0,1]`
(nearest bound) before computing the target position
`fraction * duration`; in particular `-0.5` becomes `0` and `1.7`
becomes `1`. -/
theorem c8_seek_and_scrub_clamp (s : PlayerState) (el : MediaEl) (x : ℚ)
    (hm : s.currentMedia = some el) (ht : el.tag ≠ MediaTag.img) :
    (seek x s).currentMedia =
        some { el with currentTime := clampFraction x * el.duration } ∧
      (s.thumbDragging = true →
        (endThumbDrag x s).currentMedia =
          some { el with currentTime := clampFraction x * el.duration }) ∧
      (x < 0 → clampFraction x = 0) ∧ (1 < x → clampFraction x = 1) ∧
      clampFraction (-(5/10)) = 0 ∧ clampFraction (17/10) = 1 := by
  refine ⟨?_, ?_, ?_, ?_, ?_, ?_⟩
  · unfold seek
    simp [hm, ht]
  · intro hd
    unfold endThumbDrag
    simp [hd, hm, ht]
  · intro hx
    unfold clampFraction
    rw [min_eq_right (by linarith), max_eq_left (by linarith)]
  · intro hx
    unfold clampFraction
    rw [min_eq_left (by linarith), max_eq_right (by norm_num)]
  · unfold clampFraction
    norm_num
  · unfold clampFraction
    norm_num

/-- C8 witness: the clamping theorem applied at the dragging state with the
out-of-range fraction 17/10. -/
theorem c8_seek_and_scrub_clamp_witness :
    (seek (17/10) draggingState).currentMedia =
        some { audioElA with currentTime := clampFraction (17/10) * audioElA.duration } ∧
      (draggingState.thumbDragging = true →
        (endThumbDrag (17/10) draggingState).currentMedia =
          some { audioElA with currentTime := clampFraction (17/10) * audioElA.duration }) ∧
      ((17/10 : ℚ) < 0 → clampFraction (17/10) = 0) ∧
      ((1 : ℚ) < 17/10 → clampFraction (17/10) = 1) ∧
      clampFraction (-(5/10)) = 0 ∧ clampFraction (17/10) = 1 :=
  c8_seek_and_scrub_clamp draggingState audioElA (17/10) rfl (by decide)

/-- C5: a successful load registers exactly one freshly created handle at
the end of the handle set, releases nothing (neither its own nor the
superseded session's handle), and no event other than `cleanupUrls`
(`releaseAllHandles`) ever releases a handle; `cleanupUrls` releases
every outstanding handle and empties the set. -/
theorem c5_handle_lifecycle (f : MediaFile) (s : PlayerState) (op : Op)
    (hfresh : ∀ u ∈ s.objectUrls, u < s.nextUrl)
    (hkind : mediaKindOf f = "image" ∨ mediaKindOf f = "audio" ∨ mediaKindOf f = "video")
    (hop : op ≠ Op.cleanupUrls) :
    (loadMedia f s).objectUrls = s.objectUrls ++ [s.nextUrl] ∧
      s.nextUrl ∉ s.objectUrls ∧
      (loadMedia f s).revokedUrls = s.revokedUrls ∧
      (step op s).revokedUrls = s.revokedUrls ∧
      (cleanupUrls s).objectUrls = [] ∧
      (cleanupUrls s).revokedUrls = s.revokedUrls ++ s.objectUrls := by
  refine ⟨?_, ?_, loadMedia_revokedUrls f s, step_revokedUrls op s hop, rfl, rfl⟩
  · unfold loadMedia clearError showError
    rcases hm : s.currentMedia with _ | el <;> simp only [hm] <;>
      rcases hkind with h | h | h <;> simp [h] <;> split_ifs <;> rfl
  · intro hmem
    exact absurd rfl (Nat.ne_of_lt (hfresh s.nextUrl hmem)).symm

/-- C5 witness: the lifecycle theorem applied to an audio file over a
fresh player and the `togglePlay` event. -/
theorem c5_handle_lifecycle_witness :
    (loadMedia audioFileA (initState emptyStore 100)).objectUrls =
        (initState emptyStore 100).objectUrls ++ [(initState emptyStore 100).nextUrl] ∧
      (initState emptyStore 100).nextUrl ∉ (initState emptyStore 100).objectUrls ∧
      (loadMedia audioFileA (initState emptyStore 100)).revokedUrls =
        (initState emptyStore 100).revokedUrls ∧
      (step Op.togglePlay (initState emptyStore 100)).revokedUrls =
        (initState emptyStore 100).revokedUrls ∧
      (cleanupUrls (initState emptyStore 100)).objectUrls = [] ∧
      (cleanupUrls (initState emptyStore 100)).revokedUrls =
        (initState emptyStore 100).revokedUrls ++ (initState emptyStore 100).objectUrls :=
  c5_handle_lifecycle audioFileA (initState emptyStore 100) Op.togglePlay
    (by decide) (by decide) (by decide)

/-- C6: with loop on, a natural end only rewinds the same mounted element
to position 0 and keeps it playing — the full state record is otherwise
unchanged, so `currentIndex` is untouched and no new handle is created;
with loop off, `onMediaEnded` is exactly `playNext` (advance-next). -/
theorem c6_natural_end (r : UnitRand) (s : PlayerState) (el : MediaEl)
    (hm : s.currentMedia = some el) :
    (s.loop = true →
        onMediaEnded r s =
          { s with currentMedia := some { el with currentTime := 0, elPlaying := true } }) ∧
      (s.loop = false → onMediaEnded r s = playNext r s) := by
  constructor <;> intro hl <;> simp [onMediaEnded, hl, hm]

/-- C6 witness: the natural-end theorem applied at the looping one-track
player. -/
theorem c6_natural_end_witness :
    (loopingState.loop = true →
        onMediaEnded rHalf loopingState =
          { loopingState with
              currentMedia := some { audioElA with currentTime := 0, elPlaying := true } }) ∧
      (loopingState.loop = false →
        onMediaEnded rHalf loopingState = playNext rHalf loopingState) :=
  c6_natural_end rHalf loopingState audioElA rfl

/-- C3 counterexample: the playlist already holds a track, yet adding a
batch whose filtered subset is empty still reports "no supported files" —
the claim's "if and only if the playlist was previously empty" fails. -/
theorem c3_counterexample :
    oneTrackState.playlist ≠ [] ∧
      ([textFile].filter isSupportedMedia).length = 0 ∧
      (handleFiles [textFile] oneTrackState).lastError =
        some "No supported media files found" := by
  refine ⟨?_, ?_, ?_⟩ <;> decide

/-- C3 (amended): an `addItems` batch whose filtered audio/video/image
subset is empty leaves the playlist and `currentIndex` unchanged and
reports the "no supported files" error unconditionally, whether or not
the playlist was previously empty. -/
theorem c3_empty_batch_reports_unconditionally (files : List MediaFile) (s : PlayerState)
    (h : (files.filter isSupportedMedia).length = 0) :
    (handleFiles files s).playlist = s.playlist ∧
      (handleFiles files s).currentIndex = s.currentIndex ∧
      (handleFiles files s).lastError = some "No supported media files found" := by
  refine ⟨?_, ?_, ?_⟩ <;> simp [handleFiles, showError, h]

/-- C3 witness: the amended theorem applied to a text-only batch over the
one-track player. -/
theorem c3_empty_batch_witness :
    (handleFiles [textFile] oneTrackState).playlist = oneTrackState.playlist ∧
      (handleFiles [textFile] oneTrackState).currentIndex = oneTrackState.currentIndex ∧
      (handleFiles [textFile] oneTrackState).lastError =
        some "No supported media files found" :=
  c3_empty_batch_reports_unconditionally [textFile] oneTrackState (by decide)

/-- C4 counterexample: a non-empty filtered batch added to a session-less
player whose restored `currentIndex` is 7 resets `currentIndex` to 0 —
the claim's "currentIndex is not altered" fails. -/
theorem c4_counterexample :
    ([audioFileA].filter isSupportedMedia).length ≠ 0 ∧
      (initState store7 100).currentIndex = 7 ∧
      (handleFiles [audioFileA] (initState store7 100)).currentIndex = 0 := by
  refine ⟨?_, ?_, ?_⟩ <;> decide

/-- C4 (amended): a non-empty filtered batch is appended at the end of the
playlist in order (so the length grows by exactly the filtered count and
existing items keep their positions); `currentIndex` is unaltered when a
session is live; when no session exists, `currentIndex` is set to 0 and
item 0 of the updated playlist is loaded — the resulting state is
exactly the load of the first item followed by the persist. -/
theorem c4_nonempty_batch_appends (files : List MediaFile) (s : PlayerState)
    (h : files.filter isSupportedMedia ≠ []) :
    (handleFiles files s).playlist = s.playlist ++ files.filter isSupportedMedia ∧
      (s.currentMedia.isSome = true →
        (handleFiles files s).currentIndex = s.currentIndex) ∧
      (s.currentMedia = none → (handleFiles files s).currentIndex = 0) ∧
      (∀ f0, s.currentMedia = none →
        (s.playlist ++ files.filter isSupportedMedia).head? = some f0 →
        handleFiles files s =
          saveState (loadMedia f0
            { s with
                playlist := s.playlist ++ files.filter isSupportedMedia
                currentIndex := 0 })) :=
  ⟨(handleFiles_nonempty_effects files s h).1,
    (handleFiles_nonempty_effects files s h).2.1,
    (handleFiles_nonempty_effects files s h).2.2,
    fun f0 hm hh => handleFiles_loads_first files s h hm f0 hh⟩

/-- C4 witness: the amended theorem applied to an audio batch over a fresh
player (no live session), with the load-of-item-0 conjunct instantiated
at the first appended file. -/
theorem c4_nonempty_batch_appends_witness :
    (handleFiles [audioFileA] (initState emptyStore 100)).playlist =
        (initState emptyStore 100).playlist ++ [audioFileA].filter isSupportedMedia ∧
      ((initState emptyStore 100).currentMedia.isSome = true →
        (handleFiles [audioFileA] (initState emptyStore 100)).currentIndex =
          (initState emptyStore 100).currentIndex) ∧
      ((initState emptyStore 100).currentMedia = none →
        (handleFiles [audioFileA] (initState emptyStore 100)).currentIndex = 0) ∧
      handleFiles [audioFileA] (initState emptyStore 100) =
        saveState (loadMedia audioFileA
          { initState emptyStore 100 with
              playlist := (initState emptyStore 100).playlist ++
                [audioFileA].filter isSupportedMedia
              currentIndex := 0 }) := by
  obtain ⟨h1, h2, h3, h4⟩ :=
    c4_nonempty_batch_appends [audioFileA] (initState emptyStore 100) (by decide)
  exact ⟨h1, h2, h3, h4 audioFileA (by decide) (by decide)⟩

/-- C9 counterexample: with a stored index of 7, `restoreState` moves
`currentIndex` from its constructor value 0 to 7 — controller state is
not left unchanged by the restore. -/
theorem c9_counterexample :
    (mkPlayer store7 100).currentIndex = 0 ∧
      (restoreState (mkPlayer store7 100)).currentIndex = 7 := by
  refine ⟨?_, ?_⟩ <;> decide

/-- C9 (amended): the startup restore never reconstructs a session — the
playlist, mounted element, playing flag, handle set and store are left
unchanged and only the "previously saved playlist" notice is shown — but
it does write `currentIndex`, setting it to the stored index (0 when the
key is absent or not finite). -/
theorem c9_restore_sets_index_only (s : PlayerState) :
    (restoreState s).playlist = s.playlist ∧
      (restoreState s).currentMedia = s.currentMedia ∧
      (restoreState s).isPlaying = s.isPlaying ∧
      (restoreState s).objectUrls = s.objectUrls ∧
      (restoreState s).store = s.store ∧
      (restoreState s).currentIndex =
        (match s.store.umpIndex with
          | none => some (0 : ℤ)
          | some v => v).getD 0 := by
  unfold restoreState
  rcases hu : s.store.umpIndex with _ | v <;>
    rcases hmeta : s.store.umpPlaylistMeta with _ | meta <;>
      simp [hu, hmeta] <;> split_ifs <;> simp

/-- C7: starting from the constructor (with any stored index) every
sequence of events preserves `0 ≤ currentIndex < len(playlist)` whenever
the playlist is non-empty; `advance` with shuffle on lands in
`[0, len(playlist))` for every non-empty playlist; with shuffle off it
moves `currentIndex` by +1 (next) or -1 (previous) modulo the playlist
length (circular wrap). -/
theorem c7_index_invariant (store : Store) (vol : ℚ) (ops : List Op) :
    IndexInvariant (run ops (initState store vol)) ∧
      (∀ (s : PlayerState) (r : UnitRand), s.shuffle = true → s.playlist ≠ [] →
        (0 ≤ (playNext r s).currentIndex ∧
            (playNext r s).currentIndex < s.playlist.length) ∧
          (0 ≤ (playPrevious r s).currentIndex ∧
            (playPrevious r s).currentIndex < s.playlist.length)) ∧
      (∀ (s : PlayerState) (r : UnitRand), s.shuffle = false → s.playlist ≠ [] →
        0 ≤ s.currentIndex → s.currentIndex < s.playlist.length →
        (playNext r s).currentIndex = (s.currentIndex + 1) % (s.playlist.length : ℤ) ∧
          (playPrevious r s).currentIndex =
            (s.currentIndex - 1) % (s.playlist.length : ℤ)) := by
  refine ⟨(run_preserves_inv ops _ (initState_inv store vol)).1, ?_, ?_⟩
  · intro s r hs hne
    have hlen : ¬s.playlist.length = 0 := fun hc => hne (List.length_eq_zero.mp hc)
    have hn := floor_rand_bounds r s.playlist.length (Nat.pos_of_ne_zero hlen)
    constructor
    · rw [playNext_currentIndex r s hlen, if_pos hs]
      exact hn
    · rw [playPrevious_currentIndex r s hlen, if_pos hs]
      exact hn
  · intro s r hs hne h0 hlt
    have hlen : ¬s.playlist.length = 0 := fun hc => hne (List.length_eq_zero.mp hc)
    have hnpos : (0 : ℤ) < (s.playlist.length : ℤ) := by
      exact_mod_cast Nat.pos_of_ne_zero hlen
    constructor
    · rw [playNext_currentIndex r s hlen, if_neg (by simp [hs])]
      exact Int.tmod_eq_emod (by omega) (by omega)
    · rw [playPrevious_currentIndex r s hlen, if_neg (by simp [hs])]
      rw [Int.tmod_eq_emod (by omega) (by omega)]
      simp [Int.add_emod]

/-- C7 witness: the invariant theorem instantiated at a concrete run and
at concrete shuffled and sequential two-track players. -/
theorem c7_index_invariant_witness :
    IndexInvariant
        (run [Op.handleFiles [audioFileA, audioFileB]] (initState emptyStore 100)) ∧
      ((0 ≤ (playNext rHalf shuffledState).currentIndex ∧
          (playNext rHalf shuffledState).currentIndex <
            shuffledState.playlist.length) ∧
        (0 ≤ (playPrevious rHalf shuffledState).currentIndex ∧
          (playPrevious rHalf shuffledState).currentIndex <
            shuffledState.playlist.length)) ∧
      ((playNext rHalf twoTrackState).currentIndex =
          (twoTrackState.currentIndex + 1) % (twoTrackState.playlist.length : ℤ) ∧
        (playPrevious rHalf twoTrackState).currentIndex =
          (twoTrackState.currentIndex - 1) % (twoTrackState.playlist.length : ℤ)) := by
  obtain ⟨h1, h2, h3⟩ :=
    c7_index_invariant emptyStore 100 [Op.handleFiles [audioFileA, audioFileB]]
  exact ⟨h1, h2 shuffledState rHalf (by decide) (by decide),
    h3 twoTrackState rHalf (by decide) (by decide) (by decide) (by decide)⟩

/-- C10: `endThumbDrag` always leaves the dragging flag `false`, whatever
the session state (no element, image element, or live element), so no
drag-end can leave the controller stuck in the Scrubbing substate;
`startThumbDrag` is what sets the flag. -/
theorem c10_end_drag_always_clears_dragging (x : ℚ) (s : PlayerState) :
    (endThumbDrag x s).thumbDragging = false ∧
      (startThumbDrag s).thumbDragging = true := by
  refine ⟨?_, rfl⟩
  rcases hb : s.thumbDragging
  · simp [endThumbDrag, hb]
  · rcases hm : s.currentMedia with _ | el
    · simp [endThumbDrag, hb, hm]
    · by_cases htag : el.tag = MediaTag.img <;> simp [endThumbDrag, hb, hm, htag]

end UMPlayer
